import Mathlib

/-!
Shallow embedding of the remote-agent-sandbox-proxy gateway (TypeScript / Express),
covering the Key Codec (src/utils/crypto.ts), the Authentication Gate and Admin Gate
(src/middleware/auth.ts), the Ownership Gate (src/middleware/authorize.ts), the
Credential Store query layer (src/db/queries/apiKeys.ts, src/db/queries/sandboxes.ts),
the sandbox lifecycle handlers (src/routes/sandboxes.ts), the self-service key
handlers (src/routes/user.ts) and the Forwarding Router (src/routes/proxy.ts).

Conventions of the embedding:
- JavaScript strings are Lean `String`; JS `substring` and `startsWith` are modelled
  on the character list (`String.data`).
- Database tables are explicit lists of row structures; every query returns the new
  table state where it mutates.  SQL row order is the list order.
- External collaborators (Kubernetes orchestrator, GCS object store, the upstream
  sandbox service) are explicit oracle arguments; each handler additionally returns
  the list of collaborator actions it performed, in order.
- `crypto.randomBytes(24)` is modelled by passing the 24 random bytes as an argument.
- SHA-256 is implemented concretely below (over `Nat` with explicit reduction
  modulo 2 ^ 32), so the digest function is a real deterministic executable function.
-/

namespace SandboxProxy

/-! ## Bytes and hex -/

/-- One UTF-8 code unit sequence for a character (standard UTF-8 encoding),
as natural numbers below 256. -/
def utf8Bytes (c : Char) : List Nat :=
  let n := c.toNat
  if n < 128 then [n]
  else if n < 2048 then [192 + n / 64, 128 + n % 64]
  else if n < 65536 then [224 + n / 4096, 128 + n / 64 % 64, 128 + n % 64]
  else [240 + n / 262144, 128 + n / 4096 % 64, 128 + n / 64 % 64, 128 + n % 64]

/-- The UTF-8 bytes of a string (JS `Buffer.from(s)` / hashing input). -/
def strBytes (s : String) : List Nat :=
  s.data.foldr (fun c acc => utf8Bytes c ++ acc) []

/-- Lowercase hex digit for a value below 16. -/
def hexDigit (n : Nat) : Char :=
  "0123456789abcdef".data.getD n (Char.ofNat 48)

/-- Eight lowercase hex digits of a 32-bit word, most significant first. -/
def word8Hex (w : Nat) : List Char :=
  [hexDigit (w / 268435456 % 16), hexDigit (w / 16777216 % 16),
   hexDigit (w / 1048576 % 16), hexDigit (w / 65536 % 16),
   hexDigit (w / 4096 % 16), hexDigit (w / 256 % 16),
   hexDigit (w / 16 % 16), hexDigit (w % 16)]

/-! ## SHA-256 (the `digest` of the Key Codec)

`crypto.createHash('sha256').update(key).digest('hex')` from src/utils/crypto.ts,
implemented concretely: 32-bit words are `Nat` reduced modulo 2 ^ 32. -/

/-- Reduce modulo 2 ^ 32. -/
def w32 (n : Nat) : Nat := n % 4294967296

/-- Right rotation of a 32-bit word by `n` places. -/
def rotr (n x : Nat) : Nat := w32 (x / 2 ^ n + x % 2 ^ n * 2 ^ (32 - n))

/-- Logical right shift. -/
def shr (n x : Nat) : Nat := x / 2 ^ n

/-- SHA-256 round constants. -/
def sha256K : List Nat :=
  [1116352408, 1899447441, 3049323471, 3921009573, 961987163, 1508970993,
   2453635748, 2870763221, 3624381080, 310598401, 607225278, 1426881987,
   1925078388, 2162078206, 2614888103, 3248222580, 3835390401, 4022224774,
   264347078, 604807628, 770255983, 1249150122, 1555081692, 1996064986,
   2554220882, 2821834349, 2952996808, 3210313671, 3336571891, 3584528711,
   113926993, 338241895, 666307205, 773529912, 1294757372, 1396182291,
   1695183700, 1986661051, 2177026350, 2456956037, 2730485921, 2820302411,
   3259730800, 3345764771, 3516065817, 3600352804, 4094571909, 275423344,
   430227734, 506948616, 659060556, 883997877, 958139571, 1322822218,
   1537002063, 1747873779, 1955562222, 2024104815, 2227730452, 2361852424,
   2428436474, 2756734187, 3204031479, 3329325298]

/-- SHA-256 initial hash value. -/
def sha256H0 : List Nat :=
  [1779033703, 3144134277, 1013904242, 2773480762, 1359893119, 2600822924, 528734635, 1541459225]

/-- Message padding: append 0x80, zeros, and the 64-bit big-endian bit length,
so the total length is a multiple of 64 bytes. -/
def sha256Pad (msg : List Nat) : List Nat :=
  let len := msg.length
  let bitLen := len * 8
  let padZeros := (120 - (len + 1) % 64) % 64
  msg ++ [128] ++ List.replicate padZeros 0 ++
    [bitLen / 72057594037927936 % 256, bitLen / 281474976710656 % 256,
     bitLen / 1099511627776 % 256, bitLen / 4294967296 % 256,
     bitLen / 16777216 % 256, bitLen / 65536 % 256,
     bitLen / 256 % 256, bitLen % 256]

/-- Split a byte list into 64-byte chunks (the fuel is an upper bound on the
number of chunks; padding guarantees exact division). -/
def chunksGo : Nat → List Nat → List (List Nat)
  | 0, _ => []
  | _, [] => []
  | fuel + 1, l => l.take 64 :: chunksGo fuel (l.drop 64)

/-- Big-endian 4-byte groups to 32-bit words. -/
def bytesToWords : List Nat → List Nat
  | b0 :: b1 :: b2 :: b3 :: rest =>
      (b0 * 16777216 + b1 * 65536 + b2 * 256 + b3) :: bytesToWords rest
  | _ => []

/-- Small sigma-0. -/
def ssig0 (x : Nat) : Nat := rotr 7 x ^^^ rotr 18 x ^^^ shr 3 x

/-- Small sigma-1. -/
def ssig1 (x : Nat) : Nat := rotr 17 x ^^^ rotr 19 x ^^^ shr 10 x

/-- Big sigma-0. -/
def bsig0 (x : Nat) : Nat := rotr 2 x ^^^ rotr 13 x ^^^ rotr 22 x

/-- Big sigma-1. -/
def bsig1 (x : Nat) : Nat := rotr 6 x ^^^ rotr 11 x ^^^ rotr 25 x

/-- Extend the 16 message-schedule words to 64, appending one word per step. -/
def extendLoop : Nat → List Nat → List Nat
  | 0, ws => ws
  | n + 1, ws =>
      let len := ws.length
      let nw := w32 (ws.getD (len - 16) 0 + ssig0 (ws.getD (len - 15) 0) +
                     ws.getD (len - 7) 0 + ssig1 (ws.getD (len - 2) 0))
      extendLoop n (ws ++ [nw])

/-- The eight working variables of the compression function. -/
structure Sha256State where
  a : Nat
  b : Nat
  c : Nat
  d : Nat
  e : Nat
  f : Nat
  g : Nat
  h : Nat
  deriving DecidableEq

/-- One round of the SHA-256 compression function. -/
def compressStep (st : Sha256State) (ki wi : Nat) : Sha256State :=
  let ch := (st.e &&& st.f) ^^^ ((4294967295 - st.e) &&& st.g)
  let maj := (st.a &&& st.b) ^^^ (st.a &&& st.c) ^^^ (st.b &&& st.c)
  let t1 := w32 (st.h + bsig1 st.e + ch + ki + wi)
  let t2 := w32 (bsig0 st.a + maj)
  ⟨w32 (t1 + t2), st.a, st.b, st.c, w32 (st.d + t1), st.e, st.f, st.g⟩

/-- Run the 64 compression rounds over the round constants and schedule words. -/
def compressLoop : List Nat → List Nat → Sha256State → Sha256State
  | k :: ks, w :: ws, st => compressLoop ks ws (compressStep st k w)
  | _, _, st => st

/-- Add two states componentwise modulo 2 ^ 32. -/
def addStates (x y : Sha256State) : Sha256State :=
  ⟨w32 (x.a + y.a), w32 (x.b + y.b), w32 (x.c + y.c), w32 (x.d + y.d),
   w32 (x.e + y.e), w32 (x.f + y.f), w32 (x.g + y.g), w32 (x.h + y.h)⟩

/-- The SHA-256 digest of a byte list, as the eight 32-bit hash words. -/
def sha256Words (msg : List Nat) : List Nat :=
  let padded := sha256Pad msg
  let blocks := chunksGo (padded.length + 1) padded
  let fin := blocks.foldl
    (fun st block => addStates st (compressLoop sha256K (extendLoop 48 (bytesToWords block)) st))
    ⟨1779033703, 3144134277, 1013904242, 2773480762, 1359893119, 2600822924, 528734635, 1541459225⟩
  [fin.a, fin.b, fin.c, fin.d, fin.e, fin.f, fin.g, fin.h]

/-- SHA-256 of a string, as the usual 64-character lowercase hex digest. -/
def sha256hex (s : String) : String :=
  ⟨(sha256Words (strBytes s)).foldr (fun w acc => word8Hex w ++ acc) []⟩

/-! ## Key Codec (src/utils/crypto.ts) -/

/-- The base64url alphabet, in index order. -/
def alphabetB64url : List Char :=
  "ABCDEFGHIJKLMNOPQRSTUVWXYZabcdefghijklmnopqrstuvwxyz0123456789-_".data

/-- The alphabet character for a 6-bit index (the default is unreachable for
indices below 64 and is itself an alphabet character). -/
def b64Char (n : Nat) : Char := alphabetB64url.getD n (Char.ofNat 65)

/-- Unpadded base64url of a byte list (the rendering `Buffer.toString('base64url')`
performs in `generateApiKey`): each 3-byte group becomes four 6-bit indices. -/
def base64urlEncode : List Nat → List Char
  | b0 :: b1 :: b2 :: rest =>
      let v := b0 * 65536 + b1 * 256 + b2
      b64Char (v / 262144 % 64) :: b64Char (v / 4096 % 64) :: b64Char (v / 64 % 64) ::
        b64Char (v % 64) :: base64urlEncode rest
  | [b0, b1] =>
      let v := b0 * 256 + b1
      [b64Char (v / 1024 % 64), b64Char (v / 16 % 64), b64Char (v % 16 * 4)]
  | [b0] => [b64Char (b0 / 4 % 64), b64Char (b0 % 4 * 16)]
  | [] => []

/-- `generateApiKey(prefix)` from src/utils/crypto.ts.  The 24 bytes that
`crypto.randomBytes(24)` draws are the explicit `randomBytes` argument; the
function renders them in base64url, keeps the first 32 characters, and returns
`prefix + '_' + randomPart`.  (The source calls the label parameter `prefix`.) -/
def generateApiKey (pfx : String) (randomBytes : List Nat) : String :=
  let randomPart : String := ⟨(base64urlEncode randomBytes).take 32⟩
  pfx ++ "_" ++ randomPart

/-- `hashApiKey` from src/utils/crypto.ts: the SHA-256 hex digest of the key. -/
def hashApiKey (apiKey : String) : String := sha256hex apiKey

/-- `getApiKeyPrefix` from src/utils/crypto.ts: the first 12 characters of the
key, for display.  (Renamed here; JS `substring(0, 12)` on the code units.) -/
def getApiKeyPfx (apiKey : String) : String := ⟨apiKey.data.take 12⟩

/-- `secureCompare` from src/utils/crypto.ts: length check, then
`crypto.timingSafeEqual` on the two buffers, which agrees with equality. -/
def secureCompare (a b : String) : Bool :=
  if a.data.length ≠ b.data.length then false else a == b

/-- Cost model of a short-circuiting character comparison: the number of
character comparisons performed before the first mismatch ends the walk. -/
def shortCircuitEqCost : List Char → List Char → Nat
  | x :: xs, y :: ys => 1 + (if x = y then shortCircuitEqCost xs ys else 0)
  | _, _ => 0

/-- Cost model of the plain JS `!==` string comparison that `authenticateAdmin`
performs (src/middleware/auth.ts line 119): a length check, then a
short-circuiting character walk that stops at the first mismatch. -/
def jsEqCost (a b : String) : Nat :=
  if a.data.length ≠ b.data.length then 0 else shortCircuitEqCost a.data b.data

/-- Cost model of `secureCompare`: a length check, then `timingSafeEqual`
reads every position regardless of where mismatches occur. -/
def secureCompareCost (a b : String) : Nat :=
  if a.data.length ≠ b.data.length then 0 else a.data.length

/-! ## DNS-label pattern

The pattern from the specification and the schema constraints
of ARCHITECTURE_AUTH.md (regex of the spec, as a decidable predicate). -/

/-- Lowercase letter or digit. -/
def isLowerAlnumB (c : Char) : Bool :=
  (97 ≤ c.toNat && c.toNat ≤ 122) || (48 ≤ c.toNat && c.toNat ≤ 57)

/-- Whether a string matches the DNS-label regex of the spec:
first and last characters lowercase alphanumeric, interior characters
lowercase alphanumeric or a hyphen, and the string non-empty. -/
def matchesDnsLabel (s : String) : Bool :=
  match s.data with
  | [] => false
  | c :: rest =>
      isLowerAlnumB c &&
      rest.all (fun d => isLowerAlnumB d || d.toNat == 45) &&
      isLowerAlnumB (List.getLastD rest c)

/-! ## Credential Store rows -/

/-- A row of the `users` table. -/
structure UserRow where
  id : String
  username : String
  email : String
  is_active : Bool
  deriving DecidableEq

/-- A row of the `api_keys` table.  (The display-prefix column `key_prefix`
is named `key_pfx` here.)  Timestamps are integers. -/
structure ApiKeyRow where
  id : String
  user_id : String
  key_hash : String
  key_pfx : String
  name : Option String
  expires_at : Option Int
  last_used_at : Option Int
  is_active : Bool
  deriving DecidableEq

/-- A row of the `sandboxes` table.  (The column `namespace` is named `ns`
here because `namespace` is reserved in Lean.) -/
structure SandboxRow where
  id : String
  user_id : String
  name : String
  ns : String
  k8s_resource_name : String
  image : Option String
  deriving DecidableEq

/-- The principal attached to the request by the Authentication Gate
(`req.user`). -/
structure UserCtx where
  id : String
  username : String
  email : String
  deriving DecidableEq

/-- The Credential Store state seen by `validateApiKey`. -/
structure AuthDB where
  users : List UserRow
  keys : List ApiKeyRow
  deriving DecidableEq

/-! ## HTTP responses -/

/-- The JSON response bodies the service emits. -/
inductive Body where
  /-- The uniform error shape: status plus an error kind and a message. -/
  | err (error message : String)
  /-- The Forwarding Router 404 body, which has no message field. -/
  | errBare (error : String)
  /-- A success body with a success flag and a message. -/
  | ok (message : String)
  /-- The 201 create-sandbox body with the sandbox summary. -/
  | createOk (message name ns image : String)
  /-- A mirrored upstream JSON payload. -/
  | upstream (payload : String)
  deriving DecidableEq

/-- An HTTP response: status code plus JSON body. -/
structure Response where
  status : Nat
  body : Body
  deriving DecidableEq

/-- A middleware either passes the request on or halts with a response. -/
inductive GateResult where
  | next
  | halt (r : Response)
  deriving DecidableEq

/-- A single-quote character, for handler messages that quote the sandbox
name. -/
def sq : String := String.singleton (Char.ofNat 39)

/-! ## Sandbox queries (src/db/queries/sandboxes.ts)

Each query evaluates the same SQL predicate `user_id = $1 AND name = $2`. -/

/-- The WHERE predicate shared by the sandbox queries. -/
def matchRow (userId sandboxName : String) (r : SandboxRow) : Bool :=
  r.user_id == userId && r.name == sandboxName

/-- `getSandboxByUserAndName`: first row with the given owner and name. -/
def getSandboxByUserAndName (db : List SandboxRow) (userId name : String) :
    Option SandboxRow :=
  (db.filter (matchRow userId name)).head?

/-- `userOwnsSandbox`: whether a row with the given owner and name exists
(`result.rows.length > 0`). -/
def userOwnsSandbox (db : List SandboxRow) (userId sandboxName : String) : Bool :=
  decide (0 < (db.filter (matchRow userId sandboxName)).length)

/-- `deleteSandboxByUserAndName`: remove the matching rows; the flag is
`rowCount > 0`. -/
def deleteSandboxByUserAndName (db : List SandboxRow) (userId name : String) :
    List SandboxRow × Bool :=
  (db.filter (fun r => !matchRow userId name r),
   decide (0 < (db.filter (matchRow userId name)).length))

/-! ## API-key queries (src/db/queries/apiKeys.ts) -/

/-- The lookup of `validateApiKey`: join `api_keys` with `users` on
`ak.user_id = u.id`, filtered by `ak.key_hash = $1`, first row
(`result.rows[0]`). -/
def joinKeyUser (db : AuthDB) (keyHash : String) : Option (ApiKeyRow × UserRow) :=
  (db.keys.filterMap (fun k =>
    if k.key_hash == keyHash then
      (db.users.find? (fun u => u.id == k.user_id)).map (fun u => (k, u))
    else none)).head?

/-- Result of `validateApiKey`: either invalid with an internal reason, or
valid with the resolved principal. -/
inductive ValidateResult where
  | invalid (reason : String)
  | valid (user : UserCtx)
  deriving DecidableEq

/-- `validateApiKey` from src/db/queries/apiKeys.ts: look up the digest, then
check the key active flag, the owning user active flag, and expiry, in the
order of the source.  The fire-and-forget `last_used_at` update is outside the
result and is not modelled. -/
def validateApiKey (db : AuthDB) (now : Int) (keyHash : String) : ValidateResult :=
  match joinKeyUser db keyHash with
  | none => .invalid "Invalid API key"
  | some (k, u) =>
      if !k.is_active then .invalid "API key is inactive"
      else if !u.is_active then .invalid "User account is inactive"
      else
        match k.expires_at with
        | some t => if t < now then .invalid "API key has expired"
                    else .valid ⟨u.id, u.username, u.email⟩
        | none => .valid ⟨u.id, u.username, u.email⟩

/-- `getApiKeyById`: first row with the given id. -/
def getApiKeyById (keys : List ApiKeyRow) (keyId : String) : Option ApiKeyRow :=
  (keys.filter (fun k => k.id == keyId)).head?

/-- `revokeApiKey`: set `is_active = false` on the matching rows; the flag is
`rowCount > 0`. -/
def revokeApiKey (keys : List ApiKeyRow) (keyId : String) :
    List ApiKeyRow × Bool :=
  (keys.map (fun k => if k.id == keyId then { k with is_active := false } else k),
   decide (0 < (keys.filter (fun k => k.id == keyId)).length))

/-- `createApiKey` from src/db/queries/apiKeys.ts: generate the plaintext with
the fixed label, hash it, take the display slice, insert the row (active, no
last-used timestamp) and return the row together with the plaintext.  The
fresh row id and the 24 random bytes are explicit arguments. -/
def createApiKey (newId userId : String) (name : Option String)
    (expiresAt : Option Int) (randomBytes : List Nat) (keys : List ApiKeyRow) :
    List ApiKeyRow × ApiKeyRow × String :=
  let plaintextKey := generateApiKey "sk_live" randomBytes
  let keyHash := hashApiKey plaintextKey
  let row : ApiKeyRow :=
    ⟨newId, userId, keyHash, getApiKeyPfx plaintextKey, name, expiresAt, none, true⟩
  (keys ++ [row], row, plaintextKey)

/-! ## JS string helpers for header parsing -/

/-- JS `s.substring(n)` on the code units. -/
def jsSubstring (s : String) (n : Nat) : String := ⟨s.data.drop n⟩

/-- JS `s.startsWith(p)` on the code units. -/
def jsStartsWith (s p : String) : Bool := s.data.take p.data.length == p.data

/-! ## Authentication Gate (src/middleware/auth.ts, `authenticate`) -/

/-- The observable work the gate performs after the header checks: hashing the
presented token, and the Credential Store lookup. -/
inductive AuthEvent where
  | computeDigest (tok : String)
  | storeLookup (keyHash : String)
  deriving DecidableEq

/-- The gate either halts with a response or resolves a principal. -/
inductive AuthResult where
  | halt (r : Response)
  | success (u : UserCtx)
  deriving DecidableEq

/-- `authenticate`: reject a missing header, a header without the
`Bearer ` shape, or an empty token, all with 401 and before any digest or
store work; otherwise hash the token, validate it against the store, and
either reject with 401 and the validation reason or attach the principal.
The second component lists the digest/store events performed. -/
def authenticate (authHeader : Option String) (db : AuthDB) (now : Int) :
    AuthResult × List AuthEvent :=
  match authHeader with
  | none => (.halt ⟨401, .err "Unauthorized" "Missing Authorization header"⟩, [])
  | some h =>
      if !jsStartsWith h "Bearer " then
        (.halt ⟨401, .err "Unauthorized"
          "Invalid Authorization header format. Expected: Bearer <api-key>"⟩, [])
      else
        let apiKey := jsSubstring h 7
        if apiKey == "" then
          (.halt ⟨401, .err "Unauthorized" "Empty API key"⟩, [])
        else
          let keyHash := hashApiKey apiKey
          let events := [AuthEvent.computeDigest apiKey, AuthEvent.storeLookup keyHash]
          match validateApiKey db now keyHash with
          | .invalid reason => (.halt ⟨401, .err "Unauthorized" reason⟩, events)
          | .valid u => (.success u, events)

/-! ## Admin Gate (src/middleware/auth.ts, `authenticateAdmin`) -/

/-- `authenticateAdmin`: the same header checks, then — with no Credential
Store involved — a comparison of the presented token against the configured
administrative secret (`process.env.ADMIN_API_KEY`, absent or empty modelled
as `none` / the empty string).  The source compares with the plain JS `!==`
operator; `secureCompare` is never called. -/
def authenticateAdmin (authHeader : Option String) (adminApiKey : Option String) :
    GateResult :=
  match authHeader with
  | none => .halt ⟨401, .err "Unauthorized" "Missing Authorization header"⟩
  | some h =>
      if !jsStartsWith h "Bearer " then
        .halt ⟨401, .err "Unauthorized"
          "Invalid Authorization header format. Expected: Bearer <api-key>"⟩
      else
        let apiKey := jsSubstring h 7
        match adminApiKey with
        | none =>
            .halt ⟨500, .err "Internal server error" "Admin authentication not configured"⟩
        | some admin =>
            if admin == "" then
              .halt ⟨500, .err "Internal server error" "Admin authentication not configured"⟩
            else if apiKey != admin then
              .halt ⟨403, .err "Forbidden" "Invalid admin API key"⟩
            else .next

/-! ## Ownership Gate (src/middleware/authorize.ts) -/

/-- `authorizeSandboxAccess`: require a resolved principal, require the route
name parameter, then allow exactly when `userOwnsSandbox` holds; deny with a
fixed 403 body otherwise. -/
def authorizeSandboxAccess (user : Option UserCtx) (nameParam : Option String)
    (db : List SandboxRow) : GateResult :=
  match user with
  | none => .halt ⟨401, .err "Unauthorized" "Authentication required"⟩
  | some u =>
      match nameParam with
      | none => .halt ⟨400, .err "Bad Request" "Sandbox name is required"⟩
      | some nm =>
          if nm == "" then .halt ⟨400, .err "Bad Request" "Sandbox name is required"⟩
          else if userOwnsSandbox db u.id nm then .next
          else .halt ⟨403, .err "Forbidden" "You do not have access to this sandbox"⟩

/-! ## Lifecycle handlers (src/routes/sandboxes.ts)

Collaborator calls are recorded as actions; their outcomes come from oracle
arguments.  A thrown collaborator error carries its message string and is
converted by the handler catch block into a 500 response plus a failed audit
entry, mirroring the source. -/

/-- One collaborator call made by a lifecycle handler, in order. -/
inductive Action where
  | readNs (ns : String)
  | createNs (ns : String)
  | createQuota (ns : String)
  | createNetPolicy (ns : String)
  | gcsCheck (path : String)
  | gcsCreate (path : String)
  | k8sCreateSandbox (ns name : String)
  | k8sDeleteSandbox (ns name : String)
  | dbInsert (userId name ns resName image : String)
  | dbDelete (userId name : String)
  | auditLog (action status : String)
  deriving DecidableEq

/-- Outcome of `coreApi.readNamespace`. -/
inductive NsRead where
  | found
  | notFound
  | fail (msg : String)
  deriving DecidableEq

/-- Collaborator oracle for the create handler.  `none` means the call
succeeds; `some msg` means it throws with that message.  Quota and network
policy provisioning failures are swallowed by the source, so they need no
oracle. -/
structure CreateCollab where
  nsRead : NsRead
  nsCreate : Option String
  gcsExists : Bool
  gcsSave : Option String
  k8sCreate : Option String
  dbInsertRes : Option String
  deriving DecidableEq

/-- What a lifecycle handler produced: the response, the sandbox table
afterwards, and the collaborator actions in order. -/
structure HandlerOut where
  resp : Response
  db : List SandboxRow
  actions : List Action
  deriving DecidableEq

/-- `ensureNamespaceExists`: read the namespace; on 404 create it and then
provision the quota and the network policy best-effort (their failures are
logged and swallowed); any other read error, or a create error, propagates. -/
def ensureNamespaceExists (ns : String) (c : CreateCollab) :
    List Action × Option String :=
  match c.nsRead with
  | .found => ([.readNs ns], none)
  | .fail msg => ([.readNs ns], some msg)
  | .notFound =>
      match c.nsCreate with
      | some msg => ([.readNs ns, .createNs ns], some msg)
      | none => ([.readNs ns, .createNs ns, .createQuota ns, .createNetPolicy ns], none)

/-- `createGCSFolder`: check for the placeholder object and create it when
absent; a save failure propagates. -/
def createGCSFolder (path : String) (c : CreateCollab) :
    List Action × Option String :=
  if c.gcsExists then ([.gcsCheck path], none)
  else
    match c.gcsSave with
    | some msg => ([.gcsCheck path, .gcsCreate path], some msg)
    | none => ([.gcsCheck path, .gcsCreate path], none)

/-- The body of `POST /api/sandboxes`. -/
structure CreateReq where
  name : Option String
  image : Option String
  deriving DecidableEq

/-- The create-sandbox handler (src/routes/sandboxes.ts, `router.post('/')`),
after authentication: reject a missing or empty `name` with 400; reject a
duplicate (owner, name) with 409; otherwise derive the tenant namespace
`user-<username>`, ensure it, ensure the storage folder
`<username>/<name>`, submit the orchestrator object, insert the ownership row
and audit.  Any collaborator throw is caught and answered with 500 plus a
failed audit entry.  Note: the handler performs no DNS-label validation of
`name`. -/
def createSandboxHandler (u : UserCtx) (req : CreateReq) (defaultImage newId : String)
    (db : List SandboxRow) (c : CreateCollab) : HandlerOut :=
  let missing : HandlerOut := ⟨⟨400, .err "Bad Request" "name is required"⟩, db, []⟩
  match req.name with
  | none => missing
  | some nm =>
      if nm == "" then missing
      else
        match getSandboxByUserAndName db u.id nm with
        | some _ =>
            ⟨⟨409, .err "Conflict" ("Sandbox " ++ sq ++ nm ++ sq ++ " already exists")⟩, db, []⟩
        | none =>
            let img := match req.image with
              | some i => if i == "" then defaultImage else i
              | none => defaultImage
            let ns := "user-" ++ u.username
            let resName := nm
            let path := u.username ++ "/" ++ nm
            let envs := ensureNamespaceExists ns c
            match envs.2 with
            | some msg =>
                ⟨⟨500, .err "Internal server error" msg⟩, db,
                 envs.1 ++ [.auditLog "create_sandbox" "failed"]⟩
            | none =>
                let gcs := createGCSFolder path c
                match gcs.2 with
                | some msg =>
                    ⟨⟨500, .err "Internal server error" msg⟩, db,
                     envs.1 ++ gcs.1 ++ [.auditLog "create_sandbox" "failed"]⟩
                | none =>
                    match c.k8sCreate with
                    | some msg =>
                        ⟨⟨500, .err "Internal server error" msg⟩, db,
                         envs.1 ++ gcs.1 ++ [.k8sCreateSandbox ns resName,
                           .auditLog "create_sandbox" "failed"]⟩
                    | none =>
                        match c.dbInsertRes with
                        | some msg =>
                            ⟨⟨500, .err "Internal server error" msg⟩, db,
                             envs.1 ++ gcs.1 ++ [.k8sCreateSandbox ns resName,
                               .dbInsert u.id nm ns resName img,
                               .auditLog "create_sandbox" "failed"]⟩
                        | none =>
                            let row : SandboxRow := ⟨newId, u.id, nm, ns, resName, some img⟩
                            ⟨⟨201, .createOk
                                ("Sandbox " ++ sq ++ nm ++ sq ++ " created successfully")
                                nm ns img⟩,
                             db ++ [row],
                             envs.1 ++ gcs.1 ++ [.k8sCreateSandbox ns resName,
                               .dbInsert u.id nm ns resName img,
                               .auditLog "create_sandbox" "success"]⟩

/-- Outcome of `k8sApi.deleteNamespacedCustomObject`: success, a thrown
not-found error, or another thrown error. -/
inductive K8sDelete where
  | ok
  | notFound (msg : String)
  | fail (msg : String)
  deriving DecidableEq

/-- The delete-sandbox handler (src/routes/sandboxes.ts,
`router.delete('/:name')`), after the gates: look up the ownership row (404
when absent), delete the orchestrator object, then delete the row and audit.
Any orchestrator throw — including a not-found — is caught and answered with
500, leaving the ownership row in place. -/
def deleteSandboxHandler (u : UserCtx) (nm : String) (db : List SandboxRow)
    (kdel : K8sDelete) : HandlerOut :=
  match getSandboxByUserAndName db u.id nm with
  | none => ⟨⟨404, .err "Not Found" "Sandbox not found"⟩, db, []⟩
  | some sb =>
      match kdel with
      | .notFound msg =>
          ⟨⟨500, .err "Internal server error" msg⟩, db,
           [.k8sDeleteSandbox sb.ns sb.k8s_resource_name]⟩
      | .fail msg =>
          ⟨⟨500, .err "Internal server error" msg⟩, db,
           [.k8sDeleteSandbox sb.ns sb.k8s_resource_name]⟩
      | .ok =>
          let db2 := (deleteSandboxByUserAndName db u.id nm).1
          ⟨⟨200, .ok ("Sandbox " ++ sq ++ nm ++ sq ++ " deleted successfully")⟩, db2,
           [.k8sDeleteSandbox sb.ns sb.k8s_resource_name, .dbDelete u.id nm,
            .auditLog "delete_sandbox" "success"]⟩

/-- `DELETE /api/sandboxes/:name` as routed: the Ownership Gate
(`authorizeSandboxAccess`) runs first and its halt is the response; only on
pass does the delete handler run. -/
def routeDeleteSandbox (user : Option UserCtx) (nm : String) (db : List SandboxRow)
    (kdel : K8sDelete) : HandlerOut :=
  match authorizeSandboxAccess user (some nm) db with
  | .halt r => ⟨r, db, []⟩
  | .next =>
      match user with
      | some u => deleteSandboxHandler u nm db kdel
      | none => ⟨⟨401, .err "Unauthorized" "Authentication required"⟩, db, []⟩

/-! ## Forwarding Router (src/routes/proxy.ts) -/

/-- One entry of the orchestrator status condition list. -/
structure K8sCond where
  ctype : String
  status : String
  deriving DecidableEq

/-- The orchestrator status the proxy reads (the `type` field of a condition
is named `ctype` here). -/
structure K8sStatus where
  serviceFQDN : Option String
  conditions : List K8sCond
  deriving DecidableEq

/-- The readiness read: the condition of type `Ready` has status `True`. -/
def readyOf (st : K8sStatus) : Bool :=
  match st.conditions.find? (fun c => c.ctype == "Ready") with
  | some c => c.status == "True"
  | none => false

/-- The outbound relay request the proxy constructs. -/
structure ForwardReq where
  url : String
  method : String
  body : Option String
  deriving DecidableEq

/-- What the proxy produced: the response, and the relay request when one was
sent. -/
structure ProxyOut where
  resp : Response
  fwd : Option ForwardReq
  deriving DecidableEq

/-- The proxy handler (src/routes/proxy.ts, `router.all('/:sandboxname/*')`),
after authentication: re-check ownership (403 with the gate body), fetch the
ownership row (404 with a bare body), fetch live orchestrator status (a throw
becomes 500), then 503 `Sandbox service not ready` without a resolvable
service name (absent or empty, both falsy in the source), 503
`Sandbox not ready` when the Ready condition is not `True`, and otherwise
relay to `http://<serviceFQDN>:8080/<suffix>` — no body for GET or HEAD —
mirroring the upstream status and JSON body, with upstream failures becoming
500. -/
def proxyHandler (u : UserCtx) (sandboxname pathSuffix method reqBody : String)
    (db : List SandboxRow) (k8sGet : Except String K8sStatus)
    (upstreamRes : Except String (Nat × String)) : ProxyOut :=
  if !userOwnsSandbox db u.id sandboxname then
    ⟨⟨403, .err "Forbidden" "You do not have access to this sandbox"⟩, none⟩
  else
    match getSandboxByUserAndName db u.id sandboxname with
    | none => ⟨⟨404, .errBare "Sandbox not found"⟩, none⟩
    | some _ =>
        match k8sGet with
        | .error msg => ⟨⟨500, .err "Internal server error" msg⟩, none⟩
        | .ok st =>
            match st.serviceFQDN with
            | none => ⟨⟨503, .err "Service Unavailable" "Sandbox service not ready"⟩, none⟩
            | some fqdn =>
                if fqdn == "" then
                  ⟨⟨503, .err "Service Unavailable" "Sandbox service not ready"⟩, none⟩
                else if !readyOf st then
                  ⟨⟨503, .err "Service Unavailable" "Sandbox not ready"⟩, none⟩
                else
                  let fwd : ForwardReq :=
                    ⟨"http://" ++ fqdn ++ ":8080/" ++ pathSuffix, method,
                     if method == "GET" || method == "HEAD" then none else some reqBody⟩
                  match upstreamRes with
                  | .error msg => ⟨⟨500, .err "Internal server error" msg⟩, some fwd⟩
                  | .ok (st2, data) => ⟨⟨st2, .upstream data⟩, some fwd⟩

/-! ## Self-service key revocation (src/routes/user.ts) -/

/-- What the key-revocation handler produced. -/
structure MeOut where
  resp : Response
  keys : List ApiKeyRow
  deriving DecidableEq

/-- The `DELETE /api/me/apikeys/:keyId` handler, after authentication: load
the key (404 when absent), refuse with 403 when it belongs to another user,
otherwise revoke it (flip `is_active`), with 500 when the update touched no
row. -/
def deleteApiKeyHandler (uid keyId : String) (keys : List ApiKeyRow) : MeOut :=
  match getApiKeyById keys keyId with
  | none => ⟨⟨404, .err "Not Found" "API key not found"⟩, keys⟩
  | some k =>
      if k.user_id != uid then
        ⟨⟨403, .err "Forbidden" "You do not own this API key"⟩, keys⟩
      else
        let rv := revokeApiKey keys keyId
        if !rv.2 then
          ⟨⟨500, .err "Internal server error" "Failed to revoke API key"⟩, rv.1⟩
        else ⟨⟨200, .ok "API key revoked successfully"⟩, rv.1⟩

/-! ## Helper lemmas -/

/-- A list with a first element is non-empty. -/
theorem head?_some_ne_nil {α : Type} {l : List α} {a : α} (h : l.head? = some a) :
    l ≠ [] := by
  cases l with
  | nil => cases h
  | cons x xs => exact fun hc => List.noConfusion hc

/-- Ownership holds exactly when some row matches. -/
theorem owns_iff_filter (db : List SandboxRow) (uid nm : String) :
    userOwnsSandbox db uid nm = true ↔ db.filter (matchRow uid nm) ≠ [] := by
  unfold userOwnsSandbox
  rw [decide_eq_true_iff, List.length_pos]

/-- A successful row lookup implies the ownership check passes. -/
theorem owns_of_get {db : List SandboxRow} {uid nm : String} {sb : SandboxRow}
    (h : getSandboxByUserAndName db uid nm = some sb) :
    userOwnsSandbox db uid nm = true :=
  (owns_iff_filter db uid nm).mpr (head?_some_ne_nil h)

/-- After `deleteSandboxByUserAndName`, no row for that owner and name is
left, so the ownership check fails. -/
theorem owns_after_delete (db : List SandboxRow) (uid nm : String) :
    userOwnsSandbox ((deleteSandboxByUserAndName db uid nm).1) uid nm = false := by
  unfold userOwnsSandbox deleteSandboxByUserAndName
  simp only [decide_eq_false_iff_not, Nat.not_lt, Nat.le_zero, List.length_eq_zero]
  rw [List.filter_eq_nil_iff]
  intro a ha
  have := (List.mem_filter.mp ha).2
  simp only [Bool.not_eq_true'] at this
  simp [this]

/-! ## Claim theorems -/

/-- C9: in a sequential execution over a fixed database state, if the proxy
handler ownership check `userOwnsSandbox` passes then
`getSandboxByUserAndName` returns a record — both evaluate the same
(user_id, name) predicate — so the subsequent 404 branch of the proxy handler
is unreachable once the ownership check has passed. -/
theorem c9_ownership_implies_record (db : List SandboxRow) (uid nm : String)
    (h : userOwnsSandbox db uid nm = true) :
    ∃ r, getSandboxByUserAndName db uid nm = some r := by
  unfold getSandboxByUserAndName
  have h2 := (owns_iff_filter db uid nm).mp h
  cases hf : db.filter (matchRow uid nm) with
  | nil => exact absurd hf h2
  | cons a t => exact ⟨a, rfl⟩

/-- Witness for C9 at a concrete database. -/
theorem c9_witness :
    ∃ r, getSandboxByUserAndName
      [⟨"s1", "u1", "demo", "user-alice", "demo", none⟩] "u1" "demo" = some r :=
  c9_ownership_implies_record
    [⟨"s1", "u1", "demo", "user-alice", "demo", none⟩] "u1" "demo" (by decide)

/-- C4: for an authenticated user who does not own the requested name, the
Ownership Gate denies with 403 and the response is the one fixed body — the
same whether a sandbox of that name exists under a different owner or does
not exist at all. -/
theorem c4_ownership_gate_no_existence_leak (u : UserCtx) (nm : String)
    (db1 db2 : List SandboxRow)
    (h1 : userOwnsSandbox db1 u.id nm = false)
    (h2 : userOwnsSandbox db2 u.id nm = false) (hnm : nm ≠ "") :
    authorizeSandboxAccess (some u) (some nm) db1 =
      .halt ⟨403, .err "Forbidden" "You do not have access to this sandbox"⟩ ∧
    authorizeSandboxAccess (some u) (some nm) db1 =
      authorizeSandboxAccess (some u) (some nm) db2 := by
  have hb : (nm == "") = false := beq_eq_false_iff_ne.mpr hnm
  constructor
  · simp [authorizeSandboxAccess, hb, h1]
  · simp [authorizeSandboxAccess, hb, h1, h2]

/-- Witness for C4: `bob` requesting `demo`, once against a database where
`demo` exists under `alice`, once against an empty database. -/
theorem c4_witness :
    authorizeSandboxAccess (some ⟨"u2", "bob", "b"⟩) (some "demo")
        [⟨"s1", "u1", "demo", "user-alice", "demo", none⟩] =
      .halt ⟨403, .err "Forbidden" "You do not have access to this sandbox"⟩ ∧
    authorizeSandboxAccess (some ⟨"u2", "bob", "b"⟩) (some "demo")
        [⟨"s1", "u1", "demo", "user-alice", "demo", none⟩] =
      authorizeSandboxAccess (some ⟨"u2", "bob", "b"⟩) (some "demo") [] :=
  c4_ownership_gate_no_existence_leak ⟨"u2", "bob", "b"⟩ "demo"
    [⟨"s1", "u1", "demo", "user-alice", "demo", none⟩] []
    (by decide) (by decide) (by decide)

/-- C3 (code-bug evaluation): the Admin Gate compares the presented token to
the administrative secret with the plain short-circuiting JS inequality, not
with `secureCompare`.  At the concrete secret `abc` and the equal-length
tokens `abd` and `dbc`, the gate rejects both with the same 403 body, yet the
comparison it performs costs 3 character comparisons for `abd` and 1 for
`dbc`, while `secureCompare` would cost the same (the full length) on both —
so the comparison the code performs is not the length-checked constant-time
one the specification names. -/
theorem c3_admin_gate_plain_comparison :
    authenticateAdmin (some "Bearer abd") (some "abc") =
      .halt ⟨403, .err "Forbidden" "Invalid admin API key"⟩ ∧
    authenticateAdmin (some "Bearer dbc") (some "abc") =
      .halt ⟨403, .err "Forbidden" "Invalid admin API key"⟩ ∧
    ("abd" : String).data.length = ("dbc" : String).data.length ∧
    jsEqCost "abd" "abc" = 3 ∧
    jsEqCost "dbc" "abc" = 1 ∧
    jsEqCost "abd" "abc" ≠ jsEqCost "dbc" "abc" ∧
    secureCompareCost "abd" "abc" = secureCompareCost "dbc" "abc" ∧
    secureCompare "abd" "abc" = false ∧ secureCompare "dbc" "abc" = false := by
  decide

/-- C10: the self-service key revocation handler revokes a key only when its
`user_id` is the requester: when the key exists under a different user the
handler answers 403 and leaves the key table — including the `is_active`
flag — unchanged; when the requester owns it, the handler answers 200 and
flips `is_active` on exactly the rows with that id. -/
theorem c10_revoke_requires_ownership (uid keyId : String) (keys : List ApiKeyRow)
    (k : ApiKeyRow) (hfind : getApiKeyById keys keyId = some k) :
    (k.user_id ≠ uid →
      deleteApiKeyHandler uid keyId keys =
        ⟨⟨403, .err "Forbidden" "You do not own this API key"⟩, keys⟩) ∧
    (k.user_id = uid →
      (deleteApiKeyHandler uid keyId keys).resp =
        ⟨200, .ok "API key revoked successfully"⟩ ∧
      (deleteApiKeyHandler uid keyId keys).keys =
        keys.map (fun k2 => if k2.id == keyId then { k2 with is_active := false } else k2)) := by
  have hlen : decide (0 < (keys.filter (fun k2 => k2.id == keyId)).length) = true := by
    rw [decide_eq_true_iff, List.length_pos]
    exact head?_some_ne_nil hfind
  constructor
  · intro hne
    simp [deleteApiKeyHandler, hfind, bne_iff_ne, hne]
  · intro heq
    constructor
    · simp [deleteApiKeyHandler, hfind, heq, revokeApiKey, hlen]
    · simp [deleteApiKeyHandler, hfind, heq, revokeApiKey, hlen]

/-- Witness for C10: a key owned by `u1`, requested for revocation by the
stranger `u2` (403 branch) with the table unchanged, and by the owner `u1`
(200 branch). -/
theorem c10_witness :
    (deleteApiKeyHandler "u2" "k1"
        [⟨"k1", "u1", "h", "p", none, none, none, true⟩] =
      ⟨⟨403, .err "Forbidden" "You do not own this API key"⟩,
       [⟨"k1", "u1", "h", "p", none, none, none, true⟩]⟩) ∧
    ((deleteApiKeyHandler "u1" "k1"
        [⟨"k1", "u1", "h", "p", none, none, none, true⟩]).resp =
      ⟨200, .ok "API key revoked successfully"⟩) :=
  ⟨(c10_revoke_requires_ownership "u2" "k1"
      [⟨"k1", "u1", "h", "p", none, none, none, true⟩]
      ⟨"k1", "u1", "h", "p", none, none, none, true⟩ (by decide)).1 (by decide),
   ((c10_revoke_requires_ownership "u1" "k1"
      [⟨"k1", "u1", "h", "p", none, none, none, true⟩]
      ⟨"k1", "u1", "h", "p", none, none, none, true⟩ (by decide)).2 rfl).1⟩

/-- A header of the shape `Bearer <token>` passes the shape check. -/
theorem jsStartsWith_bearer (tok : String) :
    jsStartsWith ("Bearer " ++ tok) "Bearer " = true := by
  unfold jsStartsWith
  have hd : ("Bearer " ++ tok).data = ("Bearer " : String).data ++ tok.data := rfl
  rw [hd, List.take_left]
  simp

/-- Stripping the seven `Bearer ` code units from such a header leaves the
token. -/
theorem jsSubstring_bearer (tok : String) :
    jsSubstring ("Bearer " ++ tok) 7 = tok := by
  unfold jsSubstring
  have hd : ("Bearer " ++ tok).data = ("Bearer " : String).data ++ tok.data := rfl
  have h7 : ("Bearer " : String).data.length = 7 := rfl
  rw [hd, ← h7, List.drop_left]

/-- C5: a request whose Authorization header is absent, not of the
`Bearer <token>` shape, or carrying an empty token is rejected by the
Authentication Gate with 401 and with an empty event list — no token digest is
computed and no Credential Store lookup is issued. -/
theorem c5_malformed_header_rejected_before_store (h : Option String)
    (db : AuthDB) (now : Int)
    (hm : h = none ∨ ∃ s, h = some s ∧
      (jsStartsWith s "Bearer " = false ∨ jsSubstring s 7 = "")) :
    (∃ msg, (authenticate h db now).1 = .halt ⟨401, .err "Unauthorized" msg⟩) ∧
    (authenticate h db now).2 = [] := by
  rcases hm with rfl | ⟨s, rfl, hs | hs⟩
  · exact ⟨⟨"Missing Authorization header", rfl⟩, rfl⟩
  · refine ⟨⟨"Invalid Authorization header format. Expected: Bearer <api-key>", ?_⟩, ?_⟩ <;>
      simp [authenticate, hs]
  · by_cases hw : jsStartsWith s "Bearer " = true
    · refine ⟨⟨"Empty API key", ?_⟩, ?_⟩ <;> simp [authenticate, hw, hs]
    · refine ⟨⟨"Invalid Authorization header format. Expected: Bearer <api-key>", ?_⟩, ?_⟩ <;>
        simp [authenticate, Bool.not_eq_true _ ▸ hw]

/-- Witness for C5: the three malformed headers, concretely. -/
theorem c5_witness :
    ((∃ msg, (authenticate none ⟨[], []⟩ 0).1 = .halt ⟨401, .err "Unauthorized" msg⟩) ∧
      (authenticate none ⟨[], []⟩ 0).2 = []) ∧
    ((∃ msg, (authenticate (some "Token abc") ⟨[], []⟩ 0).1 =
        .halt ⟨401, .err "Unauthorized" msg⟩) ∧
      (authenticate (some "Token abc") ⟨[], []⟩ 0).2 = []) ∧
    ((∃ msg, (authenticate (some "Bearer ") ⟨[], []⟩ 0).1 =
        .halt ⟨401, .err "Unauthorized" msg⟩) ∧
      (authenticate (some "Bearer ") ⟨[], []⟩ 0).2 = []) :=
  ⟨c5_malformed_header_rejected_before_store none ⟨[], []⟩ 0 (Or.inl rfl),
   c5_malformed_header_rejected_before_store (some "Token abc") ⟨[], []⟩ 0
     (Or.inr ⟨"Token abc", rfl, Or.inl (by decide)⟩),
   c5_malformed_header_rejected_before_store (some "Bearer ") ⟨[], []⟩ 0
     (Or.inr ⟨"Bearer ", rfl, Or.inr (by decide)⟩)⟩

/-- C6: when the store lookup by the digest of the presented token finds a key
joined to its owner, authentication still fails with 401 whenever the key is
inactive, the owning user is inactive, or the key is expired — even though the
digest matched — and the three cases carry distinct internal reason
messages. -/
theorem c6_inactive_expired_key_rejected (tok : String) (db : AuthDB) (now : Int)
    (k : ApiKeyRow) (u : UserRow) (hne : tok ≠ "")
    (hj : joinKeyUser db (hashApiKey tok) = some (k, u))
    (hbad : k.is_active = false ∨ u.is_active = false ∨
      (∃ t, k.expires_at = some t ∧ t < now)) :
    ∃ reason,
      (authenticate (some ("Bearer " ++ tok)) db now).1 =
        .halt ⟨401, .err "Unauthorized" reason⟩ ∧
      (k.is_active = false → reason = "API key is inactive") ∧
      (k.is_active = true → u.is_active = false → reason = "User account is inactive") ∧
      (k.is_active = true → u.is_active = true → reason = "API key has expired") ∧
      ("API key is inactive" ≠ "User account is inactive" ∧
       "API key is inactive" ≠ "API key has expired" ∧
       "User account is inactive" ≠ "API key has expired") := by
  have hsw := jsStartsWith_bearer tok
  have hsub := jsSubstring_bearer tok
  have hek : (tok == "") = false := beq_eq_false_iff_ne.mpr hne
  have hval : ∃ reason,
      validateApiKey db now (hashApiKey tok) = .invalid reason ∧
      (k.is_active = false → reason = "API key is inactive") ∧
      (k.is_active = true → u.is_active = false → reason = "User account is inactive") ∧
      (k.is_active = true → u.is_active = true → reason = "API key has expired") := by
    cases hka : k.is_active with
    | false =>
        refine ⟨"API key is inactive", ?_, fun _ => rfl, ?_, ?_⟩
        · simp [validateApiKey, hj, hka]
        · intro hc; simp at hc
        · intro hc; simp at hc
    | true =>
        cases hua : u.is_active with
        | false =>
            refine ⟨"User account is inactive", ?_, ?_, fun _ _ => rfl, ?_⟩
            · simp [validateApiKey, hj, hka, hua]
            · intro hc; simp at hc
            · intro _ hc; simp at hc
        | true =>
            rcases hbad with hc | hc | ⟨t, hexp, hlt⟩
            · rw [hka] at hc; cases hc
            · rw [hua] at hc; cases hc
            · refine ⟨"API key has expired", ?_, ?_, ?_, fun _ _ => rfl⟩
              · simp [validateApiKey, hj, hka, hua, hexp, hlt]
              · intro hc; simp at hc
              · intro _ hc; simp at hc
  rcases hval with ⟨reason, hv, hr1, hr2, hr3⟩
  refine ⟨reason, ?_, hr1, hr2, hr3, by decide⟩
  simp [authenticate, hsw, hsub, hek, hv]

/-- Witness for C6: a concrete store holding an inactive key for an active
user, whose stored digest is exactly the digest of the presented token. -/
theorem c6_witness :
    ∃ reason,
      (authenticate (some ("Bearer " ++ "sk_live_w"))
          ⟨[⟨"u1", "alice", "a", true⟩],
           [⟨"k1", "u1", hashApiKey "sk_live_w", "sk_live_w", none, none, none, false⟩]⟩
          0).1 =
        .halt ⟨401, .err "Unauthorized" reason⟩ ∧
      ((false : Bool) = false → reason = "API key is inactive") ∧
      ((false : Bool) = true → (true : Bool) = false → reason = "User account is inactive") ∧
      ((false : Bool) = true → (true : Bool) = true → reason = "API key has expired") ∧
      ("API key is inactive" ≠ "User account is inactive" ∧
       "API key is inactive" ≠ "API key has expired" ∧
       "User account is inactive" ≠ "API key has expired") :=
  c6_inactive_expired_key_rejected "sk_live_w"
    ⟨[⟨"u1", "alice", "a", true⟩],
     [⟨"k1", "u1", hashApiKey "sk_live_w", "sk_live_w", none, none, none, false⟩]⟩
    0 ⟨"k1", "u1", hashApiKey "sk_live_w", "sk_live_w", none, none, none, false⟩
    ⟨"u1", "alice", "a", true⟩ (by decide)
    (by simp [joinKeyUser]) (Or.inl rfl)

/-- C7: once authentication and ownership have passed and the orchestrator
status has been fetched, the Forwarding Router answers 503
`Sandbox service not ready` when the status has no resolvable service name,
503 `Sandbox not ready` when a name is present but the Ready condition is not
`True`, and otherwise relays the request to
`http://<serviceFQDN>:8080/<suffix>` — with no body for GET or HEAD — and
mirrors the upstream status code and JSON body back unmodified. -/
theorem c7_proxy_readiness_and_forwarding (u : UserCtx)
    (sn sfx method reqBody : String) (db : List SandboxRow) (sb : SandboxRow)
    (st : K8sStatus) (upstreamRes : Except String (Nat × String))
    (hown : userOwnsSandbox db u.id sn = true)
    (hget : getSandboxByUserAndName db u.id sn = some sb) :
    (st.serviceFQDN = none →
      proxyHandler u sn sfx method reqBody db (.ok st) upstreamRes =
        ⟨⟨503, .err "Service Unavailable" "Sandbox service not ready"⟩, none⟩) ∧
    (∀ f, st.serviceFQDN = some f → f ≠ "" → readyOf st = false →
      proxyHandler u sn sfx method reqBody db (.ok st) upstreamRes =
        ⟨⟨503, .err "Service Unavailable" "Sandbox not ready"⟩, none⟩) ∧
    (∀ f s2 data, st.serviceFQDN = some f → f ≠ "" → readyOf st = true →
      upstreamRes = .ok (s2, data) →
      proxyHandler u sn sfx method reqBody db (.ok st) upstreamRes =
        ⟨⟨s2, .upstream data⟩,
         some ⟨"http://" ++ f ++ ":8080/" ++ sfx, method,
           if method == "GET" || method == "HEAD" then none else some reqBody⟩⟩) := by
  refine ⟨?_, ?_, ?_⟩
  · intro hf
    simp [proxyHandler, hown, hget, hf]
  · intro f hf hfe hr
    have hfb : (f == "") = false := beq_eq_false_iff_ne.mpr hfe
    simp [proxyHandler, hown, hget, hf, hfb, hr]
  · intro f s2 data hf hfe hr hup
    have hfb : (f == "") = false := beq_eq_false_iff_ne.mpr hfe
    simp [proxyHandler, hown, hget, hf, hfb, hr, hup]

/-- Witness for C7: a concrete owned sandbox whose status is ready with a
resolvable name, relayed to a concrete upstream answer. -/
theorem c7_witness :
    proxyHandler ⟨"u1", "alice", "a"⟩ "demo" "run" "POST" "null"
        [⟨"s1", "u1", "demo", "user-alice", "demo", none⟩]
        (.ok ⟨some "svc.user-alice.svc", [⟨"Ready", "True"⟩]⟩)
        (.ok (200, "null")) =
      ⟨⟨200, .upstream "null"⟩,
       some ⟨"http://" ++ "svc.user-alice.svc" ++ ":8080/" ++ "run", "POST",
         if (("POST" == "GET" : Bool) || ("POST" == "HEAD" : Bool)) then none
         else some "null"⟩⟩ :=
  (c7_proxy_readiness_and_forwarding ⟨"u1", "alice", "a"⟩ "demo" "run" "POST" "null"
    [⟨"s1", "u1", "demo", "user-alice", "demo", none⟩]
    ⟨"s1", "u1", "demo", "user-alice", "demo", none⟩
    ⟨some "svc.user-alice.svc", [⟨"Ready", "True"⟩]⟩
    (.ok (200, "null")) (by decide) (by decide)).2.2
    "svc.user-alice.svc" 200 "null" rfl (by decide) (by decide) rfl

/-- C1 counterexample: the requested name `Bad_Name` does not match the
DNS-label pattern, yet with accepting collaborators the create handler
answers 201 — not 400 — and provisions the storage folder, the orchestrator
object, and the ownership record. -/
theorem c1_counterexample_bad_name_not_rejected :
    matchesDnsLabel "Bad_Name" = false ∧
    (createSandboxHandler ⟨"u1", "alice", "a"⟩ ⟨some "Bad_Name", none⟩ "img" "s1" []
        ⟨.notFound, none, false, none, none, none⟩).resp.status = 201 ∧
    (createSandboxHandler ⟨"u1", "alice", "a"⟩ ⟨some "Bad_Name", none⟩ "img" "s1" []
        ⟨.notFound, none, false, none, none, none⟩).resp.status ≠ 400 ∧
    Action.gcsCreate "alice/Bad_Name" ∈
      (createSandboxHandler ⟨"u1", "alice", "a"⟩ ⟨some "Bad_Name", none⟩ "img" "s1" []
        ⟨.notFound, none, false, none, none, none⟩).actions ∧
    Action.k8sCreateSandbox "user-alice" "Bad_Name" ∈
      (createSandboxHandler ⟨"u1", "alice", "a"⟩ ⟨some "Bad_Name", none⟩ "img" "s1" []
        ⟨.notFound, none, false, none, none, none⟩).actions ∧
    Action.dbInsert "u1" "Bad_Name" "user-alice" "Bad_Name" "img" ∈
      (createSandboxHandler ⟨"u1", "alice", "a"⟩ ⟨some "Bad_Name", none⟩ "img" "s1" []
        ⟨.notFound, none, false, none, none, none⟩).actions ∧
    (createSandboxHandler ⟨"u1", "alice", "a"⟩ ⟨some "Bad_Name", none⟩ "img" "s1" []
        ⟨.notFound, none, false, none, none, none⟩).db =
      [⟨"s1", "u1", "Bad_Name", "user-alice", "Bad_Name", some "img"⟩] := by
  decide

/-- C1 (amended): the create handler rejects with 400 only a missing or empty
name; it performs no DNS-label validation, so any present non-empty name —
whether or not it matches the pattern — is never answered with 400: the
handler proceeds to provision, and when all collaborators accept it answers
201, provisions the orchestrator object and appends the ownership record. -/
theorem c1_amended_create_skips_dns_validation (u : UserCtx) (nm : String)
    (img : Option String) (defImg newId : String) (db : List SandboxRow)
    (c : CreateCollab) (hnm : nm ≠ "")
    (hnew : getSandboxByUserAndName db u.id nm = none) :
    (createSandboxHandler u ⟨some nm, img⟩ defImg newId db c).resp.status ≠ 400 ∧
    ((ensureNamespaceExists ("user-" ++ u.username) c).2 = none →
     (createGCSFolder (u.username ++ "/" ++ nm) c).2 = none →
     c.k8sCreate = none → c.dbInsertRes = none →
     (createSandboxHandler u ⟨some nm, img⟩ defImg newId db c).resp.status = 201 ∧
     Action.k8sCreateSandbox ("user-" ++ u.username) nm ∈
       (createSandboxHandler u ⟨some nm, img⟩ defImg newId db c).actions ∧
     (∃ row : SandboxRow,
        (createSandboxHandler u ⟨some nm, img⟩ defImg newId db c).db = db ++ [row] ∧
        row.user_id = u.id ∧ row.name = nm)) := by
  have hb : (nm == "") = false := beq_eq_false_iff_ne.mpr hnm
  obtain ⟨nsR, nsC, gE, gS, kC, dI⟩ := c
  constructor
  · cases nsR <;> cases nsC <;> cases gE <;> cases gS <;> cases kC <;> cases dI <;>
      simp [createSandboxHandler, ensureNamespaceExists, createGCSFolder, hb, hnew]
  · intro h1 h2 h3 h4
    simp only at h3 h4
    subst h3; subst h4
    cases nsR <;> cases nsC <;> cases gE <;> cases gS <;>
      simp_all [createSandboxHandler, ensureNamespaceExists, createGCSFolder, hb, hnew]

/-- Witness for C1 (amended) at the counterexample input. -/
theorem c1_amended_witness :
    (createSandboxHandler ⟨"u1", "alice", "a"⟩ ⟨some "Bad_Name", none⟩ "img" "s1" []
      ⟨.notFound, none, false, none, none, none⟩).resp.status ≠ 400 ∧
    ((ensureNamespaceExists ("user-" ++ "alice")
        ⟨.notFound, none, false, none, none, none⟩).2 = none →
     (createGCSFolder ("alice" ++ "/" ++ "Bad_Name")
        ⟨.notFound, none, false, none, none, none⟩).2 = none →
     (⟨.notFound, none, false, none, none, none⟩ : CreateCollab).k8sCreate = none →
     (⟨.notFound, none, false, none, none, none⟩ : CreateCollab).dbInsertRes = none →
     (createSandboxHandler ⟨"u1", "alice", "a"⟩ ⟨some "Bad_Name", none⟩ "img" "s1" []
        ⟨.notFound, none, false, none, none, none⟩).resp.status = 201 ∧
     Action.k8sCreateSandbox ("user-" ++ "alice") "Bad_Name" ∈
       (createSandboxHandler ⟨"u1", "alice", "a"⟩ ⟨some "Bad_Name", none⟩ "img" "s1" []
          ⟨.notFound, none, false, none, none, none⟩).actions ∧
     (∃ row : SandboxRow,
        (createSandboxHandler ⟨"u1", "alice", "a"⟩ ⟨some "Bad_Name", none⟩ "img" "s1" []
            ⟨.notFound, none, false, none, none, none⟩).db = [] ++ [row] ∧
        row.user_id = "u1" ∧ row.name = "Bad_Name")) :=
  c1_amended_create_skips_dns_validation ⟨"u1", "alice", "a"⟩ "Bad_Name" none "img" "s1"
    [] ⟨.notFound, none, false, none, none, none⟩ (by decide) (by decide)

/-- C2 counterexample: with `alice` owning `demo`, the first routed Delete
succeeds (200) and removes the record; the second routed Delete is answered
403 by the Ownership Gate, not 404.  And when the orchestrator delete throws
not-found on an existing record, the handler answers 500 and keeps the
ownership record instead of removing it. -/
theorem c2_counterexample_delete_not_idempotent :
    ((routeDeleteSandbox (some ⟨"u1", "alice", "a"⟩) "demo"
        [⟨"s1", "u1", "demo", "user-alice", "demo", none⟩] .ok).resp.status = 200 ∧
     (routeDeleteSandbox (some ⟨"u1", "alice", "a"⟩) "demo"
        [⟨"s1", "u1", "demo", "user-alice", "demo", none⟩] .ok).db = [] ∧
     (routeDeleteSandbox (some ⟨"u1", "alice", "a"⟩) "demo" [] .ok).resp.status = 403 ∧
     (routeDeleteSandbox (some ⟨"u1", "alice", "a"⟩) "demo" [] .ok).resp.status ≠ 404) ∧
    ((routeDeleteSandbox (some ⟨"u1", "alice", "a"⟩) "demo"
        [⟨"s1", "u1", "demo", "user-alice", "demo", none⟩]
        (.notFound "sandbox not found")).resp.status = 500 ∧
     (routeDeleteSandbox (some ⟨"u1", "alice", "a"⟩) "demo"
        [⟨"s1", "u1", "demo", "user-alice", "demo", none⟩]
        (.notFound "sandbox not found")).db =
       [⟨"s1", "u1", "demo", "user-alice", "demo", none⟩]) := by
  decide

/-- C2 (amended): after a successful routed Delete the ownership record is
gone, so a second routed Delete for the same name is answered 403 by the
Ownership Gate — not 500, and not the 404 of the claim; and when the
orchestrator delete call reports not-found, the handler answers 500 and does
not remove the database ownership record. -/
theorem c2_amended_delete_behavior (u : UserCtx) (nm : String)
    (db : List SandboxRow) (sb : SandboxRow) (hnm : nm ≠ "")
    (hfound : getSandboxByUserAndName db u.id nm = some sb) :
    ((routeDeleteSandbox (some u) nm db .ok).resp.status = 200 ∧
     userOwnsSandbox (routeDeleteSandbox (some u) nm db .ok).db u.id nm = false ∧
     (∀ k2 : K8sDelete,
        (routeDeleteSandbox (some u) nm
            (routeDeleteSandbox (some u) nm db .ok).db k2).resp =
          ⟨403, .err "Forbidden" "You do not have access to this sandbox"⟩)) ∧
    (∀ msg, (routeDeleteSandbox (some u) nm db (.notFound msg)).resp.status = 500 ∧
            (routeDeleteSandbox (some u) nm db (.notFound msg)).db = db) := by
  have hb : (nm == "") = false := beq_eq_false_iff_ne.mpr hnm
  have howns := owns_of_get hfound
  have hroute : routeDeleteSandbox (some u) nm db .ok = deleteSandboxHandler u nm db .ok := by
    simp [routeDeleteSandbox, authorizeSandboxAccess, hb, howns]
  have hfirst : (routeDeleteSandbox (some u) nm db .ok).db =
      (deleteSandboxByUserAndName db u.id nm).1 := by
    rw [hroute]; simp [deleteSandboxHandler, hfound]
  have howns2 : userOwnsSandbox (routeDeleteSandbox (some u) nm db .ok).db u.id nm = false := by
    rw [hfirst]; exact owns_after_delete db u.id nm
  refine ⟨⟨?_, howns2, ?_⟩, ?_⟩
  · rw [hroute]; simp [deleteSandboxHandler, hfound]
  · intro k2
    revert howns2
    generalize (routeDeleteSandbox (some u) nm db K8sDelete.ok).db = db2
    intro howns2
    simp [routeDeleteSandbox, authorizeSandboxAccess, hb, howns2]
  · intro msg
    constructor <;>
      simp [routeDeleteSandbox, authorizeSandboxAccess, hb, howns, deleteSandboxHandler, hfound]

/-- Witness for C2 (amended) at the concrete single-row database. -/
theorem c2_amended_witness :
    ((routeDeleteSandbox (some ⟨"u1", "alice", "a"⟩) "demo"
        [⟨"s1", "u1", "demo", "user-alice", "demo", none⟩] .ok).resp.status = 200 ∧
     userOwnsSandbox
       (routeDeleteSandbox (some ⟨"u1", "alice", "a"⟩) "demo"
          [⟨"s1", "u1", "demo", "user-alice", "demo", none⟩] .ok).db "u1" "demo" = false ∧
     (∀ k2 : K8sDelete,
        (routeDeleteSandbox (some ⟨"u1", "alice", "a"⟩) "demo"
            (routeDeleteSandbox (some ⟨"u1", "alice", "a"⟩) "demo"
              [⟨"s1", "u1", "demo", "user-alice", "demo", none⟩] .ok).db k2).resp =
          ⟨403, .err "Forbidden" "You do not have access to this sandbox"⟩)) ∧
    (∀ msg,
      (routeDeleteSandbox (some ⟨"u1", "alice", "a"⟩) "demo"
          [⟨"s1", "u1", "demo", "user-alice", "demo", none⟩]
          (.notFound msg)).resp.status = 500 ∧
      (routeDeleteSandbox (some ⟨"u1", "alice", "a"⟩) "demo"
          [⟨"s1", "u1", "demo", "user-alice", "demo", none⟩] (.notFound msg)).db =
        [⟨"s1", "u1", "demo", "user-alice", "demo", none⟩]) :=
  c2_amended_delete_behavior ⟨"u1", "alice", "a"⟩ "demo"
    [⟨"s1", "u1", "demo", "user-alice", "demo", none⟩]
    ⟨"s1", "u1", "demo", "user-alice", "demo", none⟩ (by decide) (by decide)

set_option maxRecDepth 10000 in
/-- FIPS 180-2 test vector: the implemented digest agrees with SHA-256 on
`abc`. -/
theorem sha256hex_abc :
    sha256hex "abc" =
      "ba7816bf8f01cfea414140de5dae2223b00361a396177a9cb410ff61f20015ad" := by
  decide

set_option maxRecDepth 10000 in
/-- Test vector: the implemented digest agrees with SHA-256 on the empty
string. -/
theorem sha256hex_empty :
    sha256hex "" =
      "e3b0c44298fc1c149afbf4c8996fb92427ae41e4649b934ca495991b7852b855" := by
  decide

/-- Every alphabet lookup lands in the alphabet (also for an out-of-range
index, where the default is itself an alphabet letter). -/
theorem b64Char_mem (n : Nat) : b64Char n ∈ alphabetB64url := by
  by_cases h : n < 64
  · have h2 : ∀ m, m < 64 → alphabetB64url.getD m (Char.ofNat 65) ∈ alphabetB64url := by
      decide
    exact h2 n h
  · have hlen : alphabetB64url.length ≤ n := by
      have h64 : alphabetB64url.length = 64 := by decide
      omega
    unfold b64Char
    rw [List.getD_eq_default _ _ hlen]
    decide

/-- Encoding 3·n bytes yields 4·n characters. -/
theorem base64urlEncode_length (n : Nat) :
    ∀ l : List Nat, l.length = 3 * n → (base64urlEncode l).length = 4 * n := by
  induction n with
  | zero =>
      intro l h
      have : l = [] := List.length_eq_zero.mp (by omega)
      subst this; rfl
  | succ m ih =>
      intro l h
      rcases l with _ | ⟨b0, _ | ⟨b1, _ | ⟨b2, rest⟩⟩⟩
      · simp only [List.length_nil, List.length_cons] at h; omega
      · simp only [List.length_nil, List.length_cons] at h; omega
      · simp only [List.length_nil, List.length_cons] at h; omega
      · have hr : rest.length = 3 * m := by
          simp [List.length_cons] at h; omega
        simp [base64urlEncode, List.length_cons, ih rest hr]
        omega

/-- Every character the encoder emits is in the base64url alphabet. -/
theorem base64urlEncode_mem : ∀ l : List Nat, ∀ c ∈ base64urlEncode l, c ∈ alphabetB64url
  | b0 :: b1 :: b2 :: rest => by
      intro c hc
      simp only [base64urlEncode, List.mem_cons] at hc
      rcases hc with rfl | rfl | rfl | rfl | hc
      · exact b64Char_mem _
      · exact b64Char_mem _
      · exact b64Char_mem _
      · exact b64Char_mem _
      · exact base64urlEncode_mem rest c hc
  | [b0, b1] => by
      intro c hc
      simp only [base64urlEncode, List.mem_cons] at hc
      rcases hc with rfl | rfl | rfl | hc
      · exact b64Char_mem _
      · exact b64Char_mem _
      · exact b64Char_mem _
      · simp at hc
  | [b0] => by
      intro c hc
      simp only [base64urlEncode, List.mem_cons] at hc
      rcases hc with rfl | rfl | hc
      · exact b64Char_mem _
      · exact b64Char_mem _
      · simp at hc
  | [] => by
      intro c hc
      simp [base64urlEncode] at hc

/-- C8: for every label `p` and 24 random bytes, the generated key is
`p + '_' + <32 url-safe characters>`; the display slice is the first 12
characters of the key; the digest is deterministic (it is a pure function
both here and in the source, evaluated once); and the `key_hash` that
`createApiKey` persists is exactly the digest of the plaintext it returns, so
the returned plaintext re-hashes to the stored digest. -/
theorem c8_key_codec_roundtrip (p : String) (rb : List Nat) (h24 : rb.length = 24)
    (newId userId : String) (nm : Option String) (expAt : Option Int)
    (keys : List ApiKeyRow) :
    (∃ rand : String, generateApiKey p rb = p ++ "_" ++ rand ∧
       rand.data.length = 32 ∧ ∀ c ∈ rand.data, c ∈ alphabetB64url) ∧
    getApiKeyPfx (generateApiKey p rb) = ⟨(generateApiKey p rb).data.take 12⟩ ∧
    (∀ s t : String, s = t → hashApiKey s = hashApiKey t) ∧
    ((createApiKey newId userId nm expAt rb keys).2.1.key_hash =
       hashApiKey (createApiKey newId userId nm expAt rb keys).2.2 ∧
     (createApiKey newId userId nm expAt rb keys).2.2 = generateApiKey "sk_live" rb ∧
     (createApiKey newId userId nm expAt rb keys).1 =
       keys ++ [(createApiKey newId userId nm expAt rb keys).2.1]) := by
  have hlen : (base64urlEncode rb).length = 32 := by
    have h8 := base64urlEncode_length 8 rb (by omega)
    omega
  refine ⟨⟨⟨(base64urlEncode rb).take 32⟩, rfl, ?_, ?_⟩,
    rfl, fun s t hst => hst ▸ rfl, rfl, rfl, rfl⟩
  · simp [List.length_take, hlen]
  · intro c hc
    exact base64urlEncode_mem rb c (List.take_subset 32 _ hc)

/-- Witness for C8 at the label `sk_live` and a concrete 24-byte draw. -/
theorem c8_witness :
    (∃ rand : String, generateApiKey "sk_live" (List.replicate 24 7) =
        "sk_live" ++ "_" ++ rand ∧
       rand.data.length = 32 ∧ ∀ c ∈ rand.data, c ∈ alphabetB64url) ∧
    getApiKeyPfx (generateApiKey "sk_live" (List.replicate 24 7)) =
      ⟨(generateApiKey "sk_live" (List.replicate 24 7)).data.take 12⟩ ∧
    (∀ s t : String, s = t → hashApiKey s = hashApiKey t) ∧
    ((createApiKey "k1" "u1" none none (List.replicate 24 7) []).2.1.key_hash =
       hashApiKey (createApiKey "k1" "u1" none none (List.replicate 24 7) []).2.2 ∧
     (createApiKey "k1" "u1" none none (List.replicate 24 7) []).2.2 =
       generateApiKey "sk_live" (List.replicate 24 7) ∧
     (createApiKey "k1" "u1" none none (List.replicate 24 7) []).1 =
       [] ++ [(createApiKey "k1" "u1" none none (List.replicate 24 7) []).2.1]) :=
  c8_key_codec_roundtrip "sk_live" (List.replicate 24 7) (by decide)
    "k1" "u1" none none []

end SandboxProxy
